import Mathlib

/-!
Verification development for the Quflux multi-platform OAuth connection
orchestrator (backend/core/encryption.py, backend/services/oauth/twitter.py,
backend/services/platform_connection_service.py).

Python strings are modelled as lists of bytes (their UTF-8 encoding; on
ASCII data, byte order and code-point order coincide) where byte-level
algorithms are concerned, and as Lean `String`s in the orchestrator layer.
External collaborators (the HTTP client, the Fernet cipher from the
`cryptography` library, configuration) are passed in as explicit parameters;
everything else is translated directly from the source.
-/

namespace Quflux

/-- Byte values of an ASCII string, for writing concrete inputs. -/
def asciiBytes (s : String) : List Nat :=
  s.toList.map Char.toNat

/-! ## Percent-encoding: `urllib.parse.quote(s, safe='')`

`quote` with `safe=''` leaves exactly the RFC 3986 unreserved characters
(`A-Z a-z 0-9 _ . - ~`) untouched and replaces every other byte of the
UTF-8 encoding by `%XX` with uppercase hex digits. -/

/-- Characters `urllib.parse.quote` never escapes (its `_ALWAYS_SAFE` set):
letters, digits, `_`, `.`, `-`, `~`. -/
def isUnreserved (b : Nat) : Bool :=
  decide ((65 ≤ b ∧ b ≤ 90) ∨ (97 ≤ b ∧ b ≤ 122) ∨ (48 ≤ b ∧ b ≤ 57) ∨
    b = 45 ∨ b = 46 ∨ b = 95 ∨ b = 126)

/-- Uppercase hexadecimal digit character for a value `< 16`. -/
def hexDigit (n : Nat) : Nat :=
  if n < 10 then 48 + n else 55 + n

/-- `%XX` escape of one byte, or the byte itself when unreserved. -/
def percentEncodeByte (b : Nat) : List Nat :=
  if isUnreserved b then [b] else [37, hexDigit (b / 16), hexDigit (b % 16)]

/-- `urllib.parse.quote(s, safe='')` over the UTF-8 bytes of `s`. -/
def percentEncode (s : List Nat) : List Nat :=
  (s.map percentEncodeByte).flatten

/-! ## Base64 (`base64.b64encode` / `base64.urlsafe_b64encode` /
`base64.urlsafe_b64decode`) -/

/-- Character of a 6-bit group, parameterised by the two alphabet tails
(`+ /` for the standard alphabet, `- _` for the URL-safe one). -/
def b64Char (c62 c63 n : Nat) : Nat :=
  if n < 26 then 65 + n
  else if n < 52 then 97 + (n - 26)
  else if n < 62 then 48 + (n - 52)
  else if n = 62 then c62 else c63

/-- Base64 encoding with explicit alphabet tail characters; `=` padding. -/
def b64EncodeWith (c62 c63 : Nat) : List Nat → List Nat
  | [] => []
  | [a] =>
    [b64Char c62 c63 (a / 4), b64Char c62 c63 (a % 4 * 16), 61, 61]
  | [a, b] =>
    [b64Char c62 c63 (a / 4), b64Char c62 c63 (a % 4 * 16 + b / 16),
     b64Char c62 c63 (b % 16 * 4), 61]
  | a :: b :: c :: rest =>
    b64Char c62 c63 (a / 4) :: b64Char c62 c63 (a % 4 * 16 + b / 16) ::
    b64Char c62 c63 (b % 16 * 4 + c / 64) :: b64Char c62 c63 (c % 64) ::
    b64EncodeWith c62 c63 rest

/-- `base64.b64encode`: the standard alphabet ending `+ /`. -/
def b64Encode (bs : List Nat) : List Nat :=
  b64EncodeWith 43 47 bs

/-- `base64.urlsafe_b64encode`: alphabet ending `- _`. -/
def b64UrlEncode (bs : List Nat) : List Nat :=
  b64EncodeWith 45 95 bs

/-- Value of one character of the URL-safe base64 alphabet. -/
def b64UrlValue (c : Nat) : Option Nat :=
  if 65 ≤ c ∧ c ≤ 90 then some (c - 65)
  else if 97 ≤ c ∧ c ≤ 122 then some (c - 97 + 26)
  else if 48 ≤ c ∧ c ≤ 57 then some (c - 48 + 52)
  else if c = 45 then some 62
  else if c = 95 then some 63
  else none

/-- `base64.urlsafe_b64decode`. Returns `none` where the library raises
(`binascii.Error`: length not a multiple of four, or padding not at the
end); like the library, trailing bits hidden by the padding are ignored. -/
def b64UrlDecode : List Nat → Option (List Nat)
  | [] => some []
  | a :: b :: c :: d :: rest =>
    match b64UrlValue a, b64UrlValue b with
    | some va, some vb =>
      if c = 61 then
        if d = 61 ∧ rest = [] then some [va * 4 + vb / 16] else none
      else
        match b64UrlValue c with
        | some vc =>
          if d = 61 then
            if rest = [] then some [va * 4 + vb / 16, vb % 16 * 16 + vc / 4]
            else none
          else
            match b64UrlValue d, b64UrlDecode rest with
            | some vd, some bs =>
              some ((va * 4 + vb / 16) :: (vb % 16 * 16 + vc / 4) ::
                (vc % 4 * 64 + vd) :: bs)
            | _, _ => none
        | none => none
    | _, _ => none
  | _ => none

/-! ## SHA-1 and HMAC-SHA1 (`hashlib.sha1`, `hmac.new(..., hashlib.sha1)`)

32-bit words are naturals kept below `2 ^ 32`; messages are byte lists. -/

/-- Truncation to a 32-bit word. -/
def w32 (n : Nat) : Nat := n % 4294967296

/-- Left rotation of a 32-bit word by `n` bits. -/
def rotl (n x : Nat) : Nat :=
  x % 2 ^ (32 - n) * 2 ^ n + x % 4294967296 / 2 ^ (32 - n)

/-- Big-endian bytes of a 32-bit word. -/
def toBE32 (w : Nat) : List Nat :=
  [w / 16777216 % 256, w / 65536 % 256, w / 256 % 256, w % 256]

/-- Big-endian bytes of a 64-bit length field. -/
def toBE64 (n : Nat) : List Nat :=
  [n / 2 ^ 56 % 256, n / 2 ^ 48 % 256, n / 2 ^ 40 % 256, n / 2 ^ 32 % 256,
   n / 16777216 % 256, n / 65536 % 256, n / 256 % 256, n % 256]

/-- SHA-1 padding: `0x80`, zeros to 56 mod 64, then the bit length. -/
def sha1Pad (msg : List Nat) : List Nat :=
  msg ++ 128 :: List.replicate ((119 - msg.length % 64) % 64) 0 ++
    toBE64 (8 * msg.length)

/-- Big-endian 32-bit words of a byte list (length a multiple of four). -/
def bytesToWords : List Nat → List Nat
  | a :: b :: c :: d :: rest =>
    (((a * 256 + b) * 256 + c) * 256 + d) :: bytesToWords rest
  | _ => []

/-- One extension step of the SHA-1 message schedule: append
`rotl 1 (W[t-3] xor W[t-8] xor W[t-14] xor W[t-16])`. -/
def extendSchedule (ws : List Nat) : Nat → List Nat
  | 0 => ws
  | n + 1 =>
    let prev := extendSchedule ws n
    let m := prev.length
    prev ++ [rotl 1 ((prev.getD (m - 3) 0) ^^^ (prev.getD (m - 8) 0) ^^^
      (prev.getD (m - 14) 0) ^^^ (prev.getD (m - 16) 0))]

/-- SHA-1 round function for round `t`. -/
def sha1F (t b c d : Nat) : Nat :=
  if t < 20 then (b &&& c) ||| ((4294967295 - b) &&& d)
  else if t < 40 then b ^^^ c ^^^ d
  else if t < 60 then (b &&& c) ||| (b &&& d) ||| (c &&& d)
  else b ^^^ c ^^^ d

/-- SHA-1 round constant for round `t`. -/
def sha1K (t : Nat) : Nat :=
  if t < 20 then 1518500249
  else if t < 40 then 1859775393
  else if t < 60 then 2400959708
  else 3395469782

/-- The 80 SHA-1 rounds over the expanded schedule. -/
def sha1Loop : Nat → List Nat → Nat × Nat × Nat × Nat × Nat → Nat × Nat × Nat × Nat × Nat
  | _, [], st => st
  | t, w :: ws, (a, b, c, d, e) =>
    sha1Loop (t + 1) ws
      (w32 (rotl 5 a + sha1F t b c d + e + sha1K t + w), a, rotl 30 b, c, d)

/-- Process 512-bit blocks (16 words each) of the padded message. -/
def sha1Process : Nat × Nat × Nat × Nat × Nat → List Nat → Nat × Nat × Nat × Nat × Nat
  | h, w0 :: w1 :: w2 :: w3 :: w4 :: w5 :: w6 :: w7 :: w8 :: w9 :: w10 ::
      w11 :: w12 :: w13 :: w14 :: w15 :: rest =>
    let ws := extendSchedule
      [w0, w1, w2, w3, w4, w5, w6, w7, w8, w9, w10, w11, w12, w13, w14, w15] 64
    let r := sha1Loop 0 ws h
    sha1Process
      (w32 (h.1 + r.1), w32 (h.2.1 + r.2.1), w32 (h.2.2.1 + r.2.2.1),
       w32 (h.2.2.2.1 + r.2.2.2.1), w32 (h.2.2.2.2 + r.2.2.2.2)) rest
  | h, _ => h

/-- `hashlib.sha1(msg).digest()`: the 20-byte SHA-1 digest. -/
def sha1 (msg : List Nat) : List Nat :=
  let r := sha1Process (1732584193, 4023233417, 2562383102, 271733878, 3285377520)
    (bytesToWords (sha1Pad msg))
  toBE32 r.1 ++ toBE32 r.2.1 ++ toBE32 r.2.2.1 ++ toBE32 r.2.2.2.1 ++
    toBE32 r.2.2.2.2

/-- `hmac.new(key, msg, hashlib.sha1).digest()` (RFC 2104, block size 64). -/
def hmacSha1 (key msg : List Nat) : List Nat :=
  let k := if 64 < key.length then sha1 key else key
  let k0 := k ++ List.replicate (64 - k.length) 0
  sha1 ((k0.map (fun b => b ^^^ 92)) ++ sha1 ((k0.map (fun b => b ^^^ 54)) ++ msg))

/-! ## OAuth 1.0a signature
(`TwitterOAuth1Handler._generate_oauth_signature`, twitter.py lines 37-60)

Python compares strings by code point; on their UTF-8 byte lists this is
exactly lexicographic byte order, so `sorted(params.items())` is a sort of
the `(key, value)` pairs under lexicographic pair order. -/

/-- Strict lexicographic order on byte strings (Python `<` on `str`). -/
def bytesLt : List Nat → List Nat → Bool
  | [], [] => false
  | [], _ :: _ => true
  | _ :: _, [] => false
  | a :: as, b :: bs => if a < b then true else if a = b then bytesLt as bs else false

/-- Non-strict lexicographic order on byte strings. -/
def bytesLe (a b : List Nat) : Bool :=
  if a = b then true else bytesLt a b

/-- Python tuple order on `(key, value)` pairs, as used by
`sorted(params.items())`. -/
def pairLe (p q : List Nat × List Nat) : Bool :=
  if p.1 = q.1 then bytesLe p.2 q.2 else bytesLt p.1 q.1

/-- Order on pairs by the raw parameter name only. -/
def keyLe (p q : List Nat × List Nat) : Bool :=
  bytesLe p.1 q.1

/-- Order on pairs by the percent-encoded parameter name. -/
def encKeyLe (p q : List Nat × List Nat) : Bool :=
  bytesLe (percentEncode p.1) (percentEncode q.1)

/-- Insert into a list at the first position admitted by `le`. -/
def insertSorted (le : α → α → Bool) (x : α) : List α → List α
  | [] => [x]
  | y :: ys => if le x y then x :: y :: ys else y :: insertSorted le x ys

/-- Insertion sort; agrees with Python's stable `sorted` for the total
preorders used here. -/
def sortBy (le : α → α → Bool) : List α → List α
  | [] => []
  | x :: xs => insertSorted le x (sortBy le xs)

/-- ASCII uppercasing of one byte (`str.upper()` on an ASCII method name). -/
def upperAscii (b : Nat) : Nat :=
  if 97 ≤ b ∧ b ≤ 122 then b - 32 else b

/-- `_generate_oauth_signature(method, url, params, token_secret)` with the
handler's `client_secret`: sort the raw parameter pairs, percent-encode each
name and value, join as `k=v` with `&`; base string
`METHOD & enc(url) & enc(param string)`; signing key
`enc(client_secret) & enc(token_secret)`; base64 of the HMAC-SHA1 tag. -/
def generate_oauth_signature (client_secret : List Nat) (method url : List Nat)
    (params : List (List Nat × List Nat)) (token_secret : List Nat) : List Nat :=
  let sorted_params := sortBy pairLe params
  let param_string := List.intercalate [38]
    (sorted_params.map (fun p => percentEncode p.1 ++ 61 :: percentEncode p.2))
  let base_string := method.map upperAscii ++ 38 :: percentEncode url ++
    38 :: percentEncode param_string
  let signing_key := percentEncode client_secret ++ 38 :: percentEncode token_secret
  b64Encode (hmacSha1 signing_key base_string)

/-- The signature algorithm exactly as the specification words it:
percent-encode every parameter name and value, sort the encoded pairs
lexicographically by ENCODED key, join, and sign the same base string. -/
def specSignatureEncodedSort (consumer_secret : List Nat) (method url : List Nat)
    (params : List (List Nat × List Nat)) (token_secret : List Nat) : List Nat :=
  let encoded := params.map (fun p => (percentEncode p.1, percentEncode p.2))
  let sorted := sortBy (fun p q => bytesLe p.1 q.1) encoded
  let param_string := List.intercalate [38] (sorted.map (fun p => p.1 ++ 61 :: p.2))
  let base_string := method.map upperAscii ++ 38 :: percentEncode url ++
    38 :: percentEncode param_string
  let signing_key := percentEncode consumer_secret ++ 38 :: percentEncode token_secret
  b64Encode (hmacSha1 signing_key base_string)

/-- The specification's algorithm amended to sort by the RAW parameter
name (the sort the code actually performs). -/
def specSignatureRawSort (consumer_secret : List Nat) (method url : List Nat)
    (params : List (List Nat × List Nat)) (token_secret : List Nat) : List Nat :=
  let sorted := sortBy keyLe params
  let param_string := List.intercalate [38]
    (sorted.map (fun p => percentEncode p.1 ++ 61 :: percentEncode p.2))
  let base_string := method.map upperAscii ++ 38 :: percentEncode url ++
    38 :: percentEncode param_string
  let signing_key := percentEncode consumer_secret ++ 38 :: percentEncode token_secret
  b64Encode (hmacSha1 signing_key base_string)

/-! ## Token encryption (`core/encryption.py`, `TokenEncryption`)

The Fernet cipher of the `cryptography` library is an external collaborator:
it is passed in as a pair of byte-level functions. `dec` returns `none`
where the library raises (`InvalidToken`, or a `UnicodeDecodeError` of the
final `.decode()`); the repository's wrapper turns every such failure, and
any `binascii.Error` of the extra base64 layer, into the empty string. -/

/-- The `self.cipher_suite` collaborator: `Fernet.encrypt` / `Fernet.decrypt`
over bytes. -/
structure FernetSuite where
  enc : List Nat → List Nat
  dec : List Nat → Option (List Nat)

/-- `TokenEncryption.encrypt_token` (encryption.py lines 43-49): `""` maps
to `""`; otherwise the Fernet ciphertext is URL-safe base64 encoded. -/
def encrypt_token (F : FernetSuite) (token : List Nat) : List Nat :=
  if token = [] then [] else b64UrlEncode (F.enc token)

/-- `TokenEncryption.decrypt_token` (encryption.py lines 51-62): `""` maps
to `""`; otherwise base64-decode and Fernet-decrypt, and on ANY failure
silently return the empty string. -/
def decrypt_token (F : FernetSuite) (encrypted_token : List Nat) : List Nat :=
  if encrypted_token = [] then []
  else
    match b64UrlDecode encrypted_token with
    | none => []
    | some decoded =>
      match F.dec decoded with
      | none => []
      | some token => token

/-- A concrete suite satisfying the Fernet contract (a one-byte header plus
the plaintext), used to instantiate theorems about the wrapper. -/
def demoFernet : FernetSuite where
  enc := fun m => 128 :: m
  dec := fun c => match c with
    | 128 :: m => some m
    | _ => none

/-! ## The connection orchestrator
(`services/platform_connection_service.py` and the Twitter handler state of
`services/oauth/twitter.py`)

`active_states` and `_request_tokens` are Python dicts, modelled as
association lists in insertion order (lookup and the `for` scan take the
first entry; assignment of a fresh key appends; `del` removes the key).
The HTTP client, the platform handlers' network calls, configuration and
the token cipher are external collaborators bundled in `Env`. -/

/-- The distinct failures the service raises (each a `ValueError` or
`Exception` with its own message in the source). -/
inductive SvcError where
  | unsupportedPlatform
  | invalidOAuthToken
  | invalidOrExpiredState
  | invalidRequestToken
  | oauthTokenMismatch
  | providerError
  | tokenExchangeFailed
  | profileFetchFailed
  | connectionNotFound
  | noRefreshToken
  | noRefreshMethod
  | multipleResults
deriving DecidableEq

/-- One record of `self.active_states` (service lines 57-62). -/
structure StateData where
  user_id : String
  platform : String
  redirect_uri : String
  created_at : Nat
deriving DecidableEq

/-- `OAuthTokens` (oauth/base.py lines 22-30), with times as naturals. -/
structure OAuthTokens where
  access_token : String
  refresh_token : Option String
  expires_at : Option Nat
  token_type : String
  oauth_token_secret : Option String
deriving DecidableEq

/-- `UserProfile` (oauth/base.py lines 33-39), the claim-relevant fields. -/
structure UserProfile where
  platform_user_id : String
  username : String
deriving DecidableEq

/-- A `platform_connections` row. Token fields hold ciphertext. -/
structure PlatformConnection where
  id : Nat
  user_id : String
  platform : String
  platform_user_id : String
  platform_username : String
  access_token : String
  refresh_token : Option String
  oauth_token_secret : Option String
  expires_at : Option Nat
  is_active : Bool
deriving DecidableEq

/-- External collaborators: provider HTTP endpoints and the token cipher
(string-level `encrypt_token` / `decrypt_token`). -/
structure Env where
  encrypt_token : String → String
  decrypt_token : String → String
  oauth2_exchange : String → Option String → Option OAuthTokens
  oauth2_profile : String → String → Option UserProfile
  oauth2_refresh : String → String → Option OAuthTokens
  oauth2_auth_url : String → String → String
  twitter_request_token : Option (String × String)
  twitter_access_token : String → String → String → Option (String × String)
  twitter_profile : String → String → Option UserProfile

/-- The four supported platforms (`self.oauth_handlers`, lines 30-35). -/
def supportedPlatforms : List String :=
  ["twitter", "linkedin", "facebook", "instagram"]

/-- Dict lookup: first entry with the key. -/
def dictGet (d : List (String × α)) (k : String) : Option α :=
  (d.find? (fun p => p.1 == k)).map Prod.snd

/-- Dict assignment `d[k] = v`: overwrite in place, else append. -/
def dictPut (d : List (String × α)) (k : String) (v : α) : List (String × α) :=
  if (d.find? (fun p => p.1 == k)).isSome then
    d.map (fun p => if p.1 == k then (k, v) else p)
  else d ++ [(k, v)]

/-- Dict deletion `del d[k]`. -/
def dictDel (d : List (String × α)) (k : String) : List (String × α) :=
  d.filter (fun p => !(p.1 == k))

/-- The `_request_tokens` dict of a `TwitterOAuthHandler` instance:
state ↦ (oauth_token, oauth_token_secret). -/
abbrev TwitterHandlerState := List (String × (String × String))

/-- `TwitterOAuthHandler.exchange_code_for_tokens` (twitter.py lines
237-266): look up the request token stored under `state` on THIS handler
instance, check the provider-returned `oauth_token` against it, perform the
access-token exchange, drop the stored request token, and shape the token
dict (`refresh_token: None, token_type: 'oauth1'`). -/
def twitter_exchange_code_for_tokens (reqTokens : TwitterHandlerState) (env : Env)
    (oauth_token oauth_verifier state : Option String) :
    Except SvcError (OAuthTokens × TwitterHandlerState) :=
  match state with
  | none => Except.error SvcError.invalidRequestToken
  | some st =>
    match dictGet reqTokens st with
    | none => Except.error SvcError.invalidRequestToken
    | some rt =>
      if oauth_token = some rt.1 then
        match env.twitter_access_token rt.1 (oauth_verifier.getD "None") rt.2 with
        | none => Except.error SvcError.providerError
        | some p =>
          Except.ok
            ({ access_token := p.1, refresh_token := none, expires_at := none,
               token_type := "oauth1", oauth_token_secret := some p.2 },
             dictDel reqTokens st)
      else Except.error SvcError.oauthTokenMismatch

/-- `PlatformConnectionService.initiate_oauth` (lines 46-74): store the
state record FIRST, then `_get_oauth_handler` validates the platform; for
Twitter the request-token round trip runs on a handler object that is
dropped when the method returns, so its `_request_tokens` entry is lost. -/
def initiate_oauth (states : List (String × StateData)) (env : Env)
    (platform user_id redirect_uri state : String) (now : Nat) :
    Except SvcError String × List (String × StateData) :=
  let states1 := dictPut states state
    { user_id := user_id, platform := platform, redirect_uri := redirect_uri,
      created_at := now }
  if supportedPlatforms.contains platform then
    if platform == "twitter" then
      match env.twitter_request_token with
      | none => (Except.error SvcError.providerError, states1)
      | some rt =>
        (Except.ok ("https://api.x.com/oauth/authenticate?oauth_token=" ++ rt.1),
         states1)
    else (Except.ok (env.oauth2_auth_url platform state), states1)
  else (Except.error SvcError.unsupportedPlatform, states1)

/-- `_get_existing_connection` (lines 277-293): `scalar_one_or_none` over
the rows matching the `(user_id, platform, platform_user_id)` triple. -/
def get_existing_connection (db : List PlatformConnection)
    (user_id platform platform_user_id : String) :
    Except SvcError (Option PlatformConnection) :=
  match db.filter (fun c => c.user_id == user_id && c.platform == platform &&
      c.platform_user_id == platform_user_id) with
  | [] => Except.ok none
  | [c] => Except.ok (some c)
  | _ => Except.error SvcError.multipleResults

/-- `encrypt_token(x) if x else None` (service lines 310-311, 334-335):
Python truthiness sends both `None` and `""` to `None`. -/
def encOpt (env : Env) : Option String → Option String
  | none => none
  | some s => if s == "" then none else some (env.encrypt_token s)

/-- `_create_new_connection` (lines 295-320): insert a fresh row. -/
def create_new_connection (env : Env) (db : List PlatformConnection)
    (user_id platform : String) (tokens : OAuthTokens) (profile : UserProfile)
    (newId : Nat) : PlatformConnection × List PlatformConnection :=
  let c : PlatformConnection :=
    { id := newId, user_id := user_id, platform := platform,
      platform_user_id := profile.platform_user_id,
      platform_username := profile.username,
      access_token := env.encrypt_token tokens.access_token,
      refresh_token := encOpt env tokens.refresh_token,
      oauth_token_secret := encOpt env tokens.oauth_token_secret,
      expires_at := tokens.expires_at, is_active := true }
  (c, db ++ [c])

/-- `_update_connection_tokens` (lines 322-345): rewrite the token fields
of the row(s) with the connection's id. -/
def update_connection_tokens (env : Env) (db : List PlatformConnection)
    (conn : PlatformConnection) (tokens : OAuthTokens) :
    PlatformConnection × List PlatformConnection :=
  let upd := fun c : PlatformConnection =>
    if c.id == conn.id then
      { c with
        access_token := env.encrypt_token tokens.access_token,
        refresh_token := encOpt env tokens.refresh_token,
        oauth_token_secret := encOpt env tokens.oauth_token_secret,
        expires_at := tokens.expires_at, is_active := true }
    else c
  (upd conn, db.map upd)

deriving instance DecidableEq for Except

/-- The upsert tail of `complete_oauth` (service lines 138-154): on a
successful exchange and profile fetch, update the row found by the
`(user_id, platform, platform_user_id)` triple, else insert a fresh one;
on a failure the table is untouched. -/
def apply_exchange_result (env : Env) (db : List PlatformConnection)
    (user_id platform : String) (newId : Nat)
    (exchanged : Except SvcError (OAuthTokens × UserProfile)) :
    Except SvcError PlatformConnection × List PlatformConnection :=
  match exchanged with
  | Except.error e => (Except.error e, db)
  | Except.ok (tokens, profile) =>
    match get_existing_connection db user_id platform
        profile.platform_user_id with
    | Except.error e => (Except.error e, db)
    | Except.ok none =>
      let r := create_new_connection env db user_id platform tokens profile newId
      (Except.ok r.1, r.2)
    | Except.ok (some existing) =>
      let r := update_connection_tokens env db existing tokens
      (Except.ok r.1, r.2)

/-- Outcome of `complete_oauth`: its return value or exception, the
surviving `active_states`, and the connection table. -/
structure CompleteResult where
  result : Except SvcError PlatformConnection
  states : List (String × StateData)
  db : List PlatformConnection
deriving DecidableEq

/-- `PlatformConnectionService.complete_oauth` (lines 76-154). For an OAuth1
callback (both `oauth_token` and `oauth_verifier` present) the pending state
is found by scanning for the FIRST state whose platform is `"twitter"` —
the provider-returned `oauth_token` plays no part in the lookup. The state
is then verified, deleted, the exchange and profile fetch run (for Twitter
on a freshly constructed handler whose `_request_tokens` dict is empty),
and the connection is upserted by `(user_id, platform, platform_user_id)`. -/
def complete_oauth (states : List (String × StateData))
    (db : List PlatformConnection) (env : Env)
    (code state oauth_token oauth_verifier : Option String) (newId : Nat) :
    CompleteResult :=
  let resolved : Except SvcError (Option String) :=
    if oauth_token.isSome && oauth_verifier.isSome then
      match states.find? (fun p => p.2.platform == "twitter") with
      | none => Except.error SvcError.invalidOAuthToken
      | some p => Except.ok (some p.1)
    else Except.ok state
  match resolved with
  | Except.error e => { result := Except.error e, states := states, db := db }
  | Except.ok none => { result := Except.error SvcError.invalidOrExpiredState,
                        states := states, db := db }
  | Except.ok (some st) =>
    match dictGet states st with
    | none => { result := Except.error SvcError.invalidOrExpiredState,
                states := states, db := db }
    | some data =>
      let exchanged : Except SvcError (OAuthTokens × UserProfile) :=
        if data.platform == "twitter" then
          match twitter_exchange_code_for_tokens [] env
              oauth_token oauth_verifier (some st) with
          | Except.error e => Except.error e
          | Except.ok tp =>
            if tp.1.oauth_token_secret.getD "" == "" then
              Except.error SvcError.profileFetchFailed
            else
              match env.twitter_profile tp.1.access_token
                  (tp.1.oauth_token_secret.getD "") with
              | none => Except.error SvcError.profileFetchFailed
              | some profile => Except.ok (tp.1, profile)
        else
          match env.oauth2_exchange data.platform code with
          | none => Except.error SvcError.tokenExchangeFailed
          | some tokens =>
            match env.oauth2_profile data.platform tokens.access_token with
            | none => Except.error SvcError.profileFetchFailed
            | some profile => Except.ok (tokens, profile)
      let upserted := apply_exchange_result env db data.user_id data.platform
        newId exchanged
      { result := upserted.1, states := dictDel states st, db := upserted.2 }

/-- `refresh_connection_token` (lines 156-192): load the row, fail when the
stored `refresh_token` field is falsy, decrypt it, build the handler
(validating the platform), and refresh. `TwitterOAuthHandler` defines no
`refresh_access_token`, so reaching it would raise an `AttributeError`;
the base handler re-checks the decrypted token for truthiness. -/
def refresh_connection_token (db : List PlatformConnection) (env : Env)
    (connection_id : Nat) :
    Except SvcError PlatformConnection × List PlatformConnection :=
  match db.filter (fun c => c.id == connection_id) with
  | [] => (Except.error SvcError.connectionNotFound, db)
  | [conn] =>
    match conn.refresh_token with
    | none => (Except.error SvcError.noRefreshToken, db)
    | some rt =>
      if rt == "" then (Except.error SvcError.noRefreshToken, db)
      else
        let plain := env.decrypt_token rt
        if supportedPlatforms.contains conn.platform then
          if conn.platform == "twitter" then
            (Except.error SvcError.noRefreshMethod, db)
          else if plain == "" then (Except.error SvcError.noRefreshToken, db)
          else
            match env.oauth2_refresh conn.platform plain with
            | none => (Except.error SvcError.providerError, db)
            | some newTokens =>
              let r := update_connection_tokens env db conn newTokens
              (Except.ok r.1, r.2)
        else (Except.error SvcError.unsupportedPlatform, db)
  | _ => (Except.error SvcError.multipleResults, db)

/-- Whether an `Except` value is a success. -/
def exceptOk : Except ε α → Bool
  | Except.ok _ => true
  | Except.error _ => false

/-- Number of rows for one `(user_id, platform, platform_user_id)` triple. -/
def tripleCount (db : List PlatformConnection) (u p pu : String) : Nat :=
  db.countP (fun c => c.user_id == u && c.platform == p &&
    c.platform_user_id == pu)

/-- The uniqueness invariant of the connection table: at most one row per
`(user_id, platform, platform_user_id)` triple. -/
def DbAtMostOne (db : List PlatformConnection) : Prop :=
  ∀ u p pu, tripleCount db u p pu ≤ 1

/-- The payload of one delivered OAuth callback. -/
structure OAuthCallback where
  code : Option String
  state : Option String
  oauth_token : Option String
  oauth_verifier : Option String
  newId : Nat

/-- Run a sequence of `complete_oauth` calls, threading the state store and
the connection table. -/
def run_completes (env : Env) : List OAuthCallback →
    List (String × StateData) × List PlatformConnection →
    List (String × StateData) × List PlatformConnection
  | [], sd => sd
  | cb :: rest, (states, db) =>
    let r := complete_oauth states db env cb.code cb.state cb.oauth_token
      cb.oauth_verifier cb.newId
    run_completes env rest (r.states, r.db)

/-! ## Concrete instances used to evaluate the model -/

/-- A concrete token response, as a provider stub would return it. -/
def demoTokens : OAuthTokens :=
  { access_token := "acc", refresh_token := some "ref", expires_at := some 3600,
    token_type := "Bearer", oauth_token_secret := none }

/-- A concrete environment: every provider call succeeds. -/
def demoEnv : Env :=
  { encrypt_token := fun s => "enc-" ++ s
  , decrypt_token := fun s => s.drop 4
  , oauth2_exchange := fun _ _ => some demoTokens
  , oauth2_profile := fun _ _ => some { platform_user_id := "pid", username := "user" }
  , oauth2_refresh := fun _ _ => some demoTokens
  , oauth2_auth_url := fun platform state => platform ++ "-auth-" ++ state
  , twitter_request_token := some ("reqtok", "reqsec")
  , twitter_access_token := fun _ _ _ => some ("tacc", "tsec")
  , twitter_profile := fun _ _ => some { platform_user_id := "tpid", username := "tuser" } }

/-- Pending state of user `alice`, initiated first. -/
def aliceState : StateData :=
  { user_id := "alice", platform := "twitter", redirect_uri := "cb", created_at := 0 }

/-- Pending state of user `bob`, initiated second. -/
def bobState : StateData :=
  { user_id := "bob", platform := "twitter", redirect_uri := "cb", created_at := 1 }

/-- A pending LinkedIn state. -/
def linkedinState : StateData :=
  { user_id := "carol", platform := "linkedin", redirect_uri := "cb", created_at := 0 }

/-- A stored Twitter connection: OAuth 1.0a flows yield no refresh token. -/
def twitterConn : PlatformConnection :=
  { id := 5, user_id := "alice", platform := "twitter", platform_user_id := "tpid",
    platform_username := "tuser", access_token := "enc-tacc", refresh_token := none,
    oauth_token_secret := some "enc-tsec", expires_at := none, is_active := true }

/-- The parameter set of the fixed OAuth 1.0a signing example published in
the Twitter developer documentation ("Creating a signature"). -/
def goldenParams : List (List Nat × List Nat) :=
  [(asciiBytes ("status"),
    asciiBytes ("Hello Ladies + Gentlemen, a signed OAuth request!")),
   (asciiBytes ("include_entities"), asciiBytes ("true")),
   (asciiBytes ("oauth_consumer_key"), asciiBytes ("xvz1evFS4wEEPTGEFPHBog")),
   (asciiBytes ("oauth_nonce"),
    asciiBytes ("kYjzVBB8Y0ZFabxSWbWovY3uYSQ2pTgmZeNu2VS4cg")),
   (asciiBytes ("oauth_signature_method"), asciiBytes ("HMAC-SHA1")),
   (asciiBytes ("oauth_timestamp"), asciiBytes ("1318622958")),
   (asciiBytes ("oauth_token"),
    asciiBytes ("370773112-GmHxMAgYyLbNEtIKZeRNFsMKPR9EyMZeS9weJAEb")),
   (asciiBytes ("oauth_version"), asciiBytes ("1.0"))]

/-- Two parameters whose raw names order as `- < /` but whose encoded names
order as `%2F < -`: raw-name and encoded-name sorting disagree here. -/
def mixedSortParams : List (List Nat × List Nat) :=
  [([45], [120]), ([47], [121])]

/-! ## General lemmas -/

/-- Every URL-safe alphabet character decodes back to its 6-bit value. -/
theorem b64UrlValue_b64Char : ∀ n, n < 64 → b64UrlValue (b64Char 45 95 n) = some n := by
  decide

/-- URL-safe alphabet characters are never the padding character `=`. -/
theorem b64Char_ne_pad : ∀ n, n < 64 → b64Char 45 95 n ≠ 61 := by
  decide

/-- Decoding inverts encoding on byte strings (all entries `< 256`). -/
theorem b64Url_decode_encode :
    ∀ bs : List Nat, (∀ b ∈ bs, b < 256) →
      b64UrlDecode (b64UrlEncode bs) = some bs
  | [], _ => rfl
  | [a], h => by
    have ha : a < 256 := h a (by simp)
    have h1 : a / 4 < 64 := by omega
    have h2 : a % 4 * 16 < 64 := by omega
    have n1 := b64Char_ne_pad _ h1
    have n2 := b64Char_ne_pad _ h2
    simp only [b64UrlEncode, b64EncodeWith, b64UrlDecode,
      b64UrlValue_b64Char _ h1, b64UrlValue_b64Char _ h2]
    simp [n1, n2]
    omega
  | [a, b], h => by
    have ha : a < 256 := h a (by simp)
    have hb : b < 256 := h b (by simp)
    have h1 : a / 4 < 64 := by omega
    have h2 : a % 4 * 16 + b / 16 < 64 := by omega
    have h3 : b % 16 * 4 < 64 := by omega
    have n3 := b64Char_ne_pad _ h3
    simp only [b64UrlEncode, b64EncodeWith, b64UrlDecode,
      b64UrlValue_b64Char _ h1, b64UrlValue_b64Char _ h2,
      b64UrlValue_b64Char _ h3]
    simp [n3]
    omega
  | a :: b :: c :: rest, h => by
    have ha : a < 256 := h a (by simp)
    have hb : b < 256 := h b (by simp)
    have hc : c < 256 := h c (by simp)
    have h1 : a / 4 < 64 := by omega
    have h2 : a % 4 * 16 + b / 16 < 64 := by omega
    have h3 : b % 16 * 4 + c / 64 < 64 := by omega
    have h4 : c % 64 < 64 := by omega
    have n3 := b64Char_ne_pad _ h3
    have n4 := b64Char_ne_pad _ h4
    have ih : b64UrlDecode (b64EncodeWith 45 95 rest) = some rest :=
      b64Url_decode_encode rest (fun x hx => h x (by simp [hx]))
    simp only [b64UrlEncode, b64EncodeWith, b64UrlDecode,
      b64UrlValue_b64Char _ h1, b64UrlValue_b64Char _ h2,
      b64UrlValue_b64Char _ h3, b64UrlValue_b64Char _ h4]
    simp [n3, n4, ih]
    omega

/-- Inserting with `insertSorted` is a permutation. -/
theorem insertSorted_perm (le : α → α → Bool) (x : α) :
    ∀ l : List α, List.Perm (insertSorted le x l) (x :: l)
  | [] => List.Perm.refl _
  | y :: ys => by
    unfold insertSorted
    by_cases h : le x y = true
    · simp [h]
    · simp only [h, if_false]
      exact ((insertSorted_perm le x ys).cons y).trans (List.Perm.swap x y ys)

/-- `sortBy` is a permutation. -/
theorem sortBy_perm (le : α → α → Bool) :
    ∀ l : List α, List.Perm (sortBy le l) l
  | [] => List.Perm.refl _
  | x :: xs =>
    (insertSorted_perm le x (sortBy le xs)).trans ((sortBy_perm le xs).cons x)

/-- On pairs with distinct keys, tuple order and key order agree. -/
theorem pairLe_eq_keyLe_of_ne (p q : List Nat × List Nat) (h : p.1 ≠ q.1) :
    pairLe p q = keyLe p q := by
  simp [pairLe, keyLe, bytesLe, h]

/-- Inserting a pair whose key is fresh behaves the same under tuple order
and key order. -/
theorem insertSorted_pairLe_eq_keyLe (x : List Nat × List Nat) :
    ∀ l : List (List Nat × List Nat), (∀ y ∈ l, x.1 ≠ y.1) →
      insertSorted pairLe x l = insertSorted keyLe x l
  | [], _ => rfl
  | y :: ys, h => by
    unfold insertSorted
    rw [pairLe_eq_keyLe_of_ne x y (h y (by simp))]
    by_cases hle : keyLe x y = true
    · simp [hle]
    · simp only [hle, if_false]
      rw [insertSorted_pairLe_eq_keyLe x ys (fun z hz => h z (by simp [hz]))]

/-- When all keys are distinct (as for a Python `dict`), sorting the pairs
by Python tuple order is the same as sorting by the raw key. -/
theorem sortBy_pairLe_eq_keyLe :
    ∀ l : List (List Nat × List Nat), (l.map Prod.fst).Nodup →
      sortBy pairLe l = sortBy keyLe l
  | [], _ => rfl
  | x :: xs, h => by
    have hx : ∀ y ∈ xs, x.1 ≠ y.1 := by
      intro y hy
      have := (List.nodup_cons.mp h).1
      intro heq
      exact this (heq ▸ List.mem_map_of_mem Prod.fst hy)
    have htail : (xs.map Prod.fst).Nodup := (List.nodup_cons.mp h).2
    unfold sortBy
    rw [sortBy_pairLe_eq_keyLe xs htail]
    refine insertSorted_pairLe_eq_keyLe x (sortBy keyLe xs) ?_
    intro y hy
    exact hx y ((sortBy_perm keyLe xs).mem_iff.mp hy)

/-- The code's signature coincides with the spec's algorithm amended to
raw-name sorting, whenever the parameter names are distinct. -/
theorem generate_oauth_signature_eq_rawSort (cs m u ts : List Nat)
    (params : List (List Nat × List Nat)) (h : (params.map Prod.fst).Nodup) :
    generate_oauth_signature cs m u params ts = specSignatureRawSort cs m u params ts := by
  unfold generate_oauth_signature specSignatureRawSort
  rw [sortBy_pairLe_eq_keyLe params h]

/-- Looking up the key of a member of a dict with distinct keys returns
that member's value. -/
theorem dictGet_of_mem {α} (d : List (String × α)) (p : String × α)
    (hnd : (d.map Prod.fst).Nodup) (hmem : p ∈ d) :
    dictGet d p.1 = some p.2 := by
  induction d with
  | nil => cases hmem
  | cons q t ih =>
    rcases List.mem_cons.mp hmem with h | h
    · subst h
      simp [dictGet, List.find?_cons_of_pos]
    · have hne : q.1 ≠ p.1 := by
        intro he
        exact (List.nodup_cons.mp hnd).1
          (he ▸ List.mem_map_of_mem Prod.fst h)
      have := ih (List.nodup_cons.mp hnd).2 h
      simpa [dictGet, List.find?_cons_of_neg, hne] using this

/-- Lookup in the empty dict finds nothing. -/
theorem dictGet_nil {α} (k : String) : dictGet ([] : List (String × α)) k = none :=
  rfl

/-- After `del d[k]` the key `k` is gone. -/
theorem dictGet_dictDel {α} (d : List (String × α)) (k : String) :
    dictGet (dictDel d k) k = none := by
  have h : List.find? (fun p => p.1 == k) (List.filter (fun p => !(p.1 == k)) d)
      = none :=
    List.find?_eq_none.mpr
      (fun x hx => by simpa using (List.mem_filter.mp hx).2)
  simp [dictGet, dictDel, h]

/-! ## The claims about the token cipher -/

/-- C5: under a fixed key, `decrypt_token (encrypt_token x) = x` for every
string `x`, the empty string included. The Fernet collaborator is assumed
to satisfy its contract: decryption inverts encryption, ciphertexts are
byte strings, and ciphertexts are never empty. -/
theorem decrypt_encrypt_roundtrip (F : FernetSuite)
    (hdec : ∀ m, F.dec (F.enc m) = some m)
    (hbytes : ∀ m, (∀ b ∈ m, b < 256) → ∀ b ∈ F.enc m, b < 256)
    (hne : ∀ m, F.enc m ≠ [])
    (token : List Nat) (htoken : ∀ b ∈ token, b < 256) :
    decrypt_token F (encrypt_token F token) = token := by
  by_cases h : token = []
  · subst h
    rfl
  · have henc : b64UrlEncode (F.enc token) ≠ [] := by
      cases hE : F.enc token with
      | nil => exact absurd hE (hne token)
      | cons a t =>
        cases t with
        | nil => simp [b64UrlEncode, b64EncodeWith]
        | cons b t2 =>
          cases t2 with
          | nil => simp [b64UrlEncode, b64EncodeWith]
          | cons c t3 => simp [b64UrlEncode, b64EncodeWith]
    simp only [encrypt_token, decrypt_token, if_neg h, if_neg henc,
      b64Url_decode_encode (F.enc token) (hbytes token htoken), hdec token]

/-- Witness for C5: the round trip evaluated at a concrete cipher
satisfying the Fernet contract and a concrete token. -/
theorem decrypt_encrypt_roundtrip_witness :
    decrypt_token demoFernet (encrypt_token demoFernet (asciiBytes ("tok"))) =
      asciiBytes ("tok") :=
  decrypt_encrypt_roundtrip demoFernet (fun _ => rfl)
    (fun m hm b hb => by
      rcases List.mem_cons.mp hb with h | h
      · omega
      · exact hm b h)
    (fun m => by simp [demoFernet])
    (asciiBytes ("tok")) (by decide)

/-- C1: `decrypt_token` never raises a distinct decryption error — on a
ciphertext that `encrypt_token` did not produce (here: the genuine
ciphertext of `"tok"` with its first character tampered, and a
well-formed base64 string that is no ciphertext at all) it silently
returns the empty string, the very value that means "no token". -/
theorem decrypt_tampered_returns_empty :
    decrypt_token demoFernet
      (97 :: (encrypt_token demoFernet (asciiBytes ("tok"))).tail) = [] ∧
    decrypt_token demoFernet (asciiBytes ("AAAA")) = [] := by
  constructor <;> rfl

/-! ## The claims about the OAuth 1.0a signature -/

set_option maxRecDepth 1000000 in
/-- C6 counterexample: on parameter names `-` and `/` the code's signature
(raw-name sort) differs from the specification's algorithm (encoded-name
sort), so the code does not implement the spec's sort order. -/
theorem oauth_signature_sort_order_differs :
    generate_oauth_signature (asciiBytes ("cs")) (asciiBytes ("POST"))
      (asciiBytes ("http://a.example/r")) mixedSortParams (asciiBytes ("ts")) ≠
    specSignatureEncodedSort (asciiBytes ("cs")) (asciiBytes ("POST"))
      (asciiBytes ("http://a.example/r")) mixedSortParams (asciiBytes ("ts")) := by
  decide

set_option maxRecDepth 1000000 in
/-- C6 (amended): the signature function implements the spec's algorithm
with the parameters sorted lexicographically by RAW name (not by encoded
key) — for every input with distinct parameter names — and on the fixed
tuple of Twitter's published signing example it reproduces the published
signature `hCtSmYh+iHYCEqBWrE7C7hYmtUk=`. -/
theorem oauth_signature_correct :
    (∀ (cs m u ts : List Nat) (params : List (List Nat × List Nat)),
      (params.map Prod.fst).Nodup →
      generate_oauth_signature cs m u params ts =
        specSignatureRawSort cs m u params ts) ∧
    generate_oauth_signature
      (asciiBytes ("kAcSOqF21Fu85e7zjz7ZN2U4ZRhfV3WpwPAoE3Z7kBw"))
      (asciiBytes ("post"))
      (asciiBytes ("https://api.twitter.com/1.1/statuses/update.json"))
      goldenParams
      (asciiBytes ("LswwdoUaIvS8ltyTt5jkRh4J50vUPVVHtR2YPi5kE")) =
      asciiBytes ("hCtSmYh+iHYCEqBWrE7C7hYmtUk=") :=
  ⟨fun cs m u ts params h => generate_oauth_signature_eq_rawSort cs m u ts params h,
   by decide⟩

/-- Witness for C6: the refinement applied at a concrete parameter list
with distinct names. -/
theorem oauth_signature_correct_witness :
    generate_oauth_signature (asciiBytes ("cs")) (asciiBytes ("GET"))
      (asciiBytes ("http://a.example/r")) mixedSortParams (asciiBytes ("ts")) =
    specSignatureRawSort (asciiBytes ("cs")) (asciiBytes ("GET"))
      (asciiBytes ("http://a.example/r")) mixedSortParams (asciiBytes ("ts")) :=
  oauth_signature_correct.1 (asciiBytes ("cs")) (asciiBytes ("GET"))
    (asciiBytes ("http://a.example/r")) (asciiBytes ("ts")) mixedSortParams
    (by decide)

/-! ## The claims about the orchestrator -/

/-- C2: for every OAuth1 (Twitter) callback — `oauth_token` and
`oauth_verifier` both present — `complete_oauth` fails: the request token
captured during initiate lived in the `_request_tokens` dict of the handler
object that initiate created and dropped, while complete constructs a fresh
handler whose dict is empty, so the exchange always raises on its
`state not in _request_tokens` check and no Twitter completion can ever
produce a connection. -/
theorem twitter_complete_always_fails (states : List (String × StateData))
    (db : List PlatformConnection) (env : Env)
    (code state oauth_token oauth_verifier : Option String) (newId : Nat)
    (hnd : (states.map Prod.fst).Nodup)
    (hot : oauth_token.isSome = true) (hov : oauth_verifier.isSome = true) :
    exceptOk (complete_oauth states db env code state oauth_token
      oauth_verifier newId).result = false := by
  unfold complete_oauth
  rw [hot, hov]
  cases hfind : states.find? (fun p => p.2.platform == "twitter") with
  | none => simp [hfind, exceptOk]
  | some p =>
    have hplat := List.find?_some hfind
    have hplat2 : p.2.platform = "twitter" := by simpa using hplat
    have hget : dictGet states p.1 = some p.2 :=
      dictGet_of_mem states p hnd (List.mem_of_find?_eq_some hfind)
    simp [hfind, hget, hplat, hplat2, twitter_exchange_code_for_tokens,
      dictGet_nil, exceptOk, apply_exchange_result]

/-- Witness for C2 at a concrete pending state and callback. -/
theorem twitter_complete_always_fails_witness :
    exceptOk (complete_oauth [("sA", aliceState)] [] demoEnv none none
      (some ("t")) (some ("v")) 3).result = false :=
  twitter_complete_always_fails [("sA", aliceState)] [] demoEnv none none
    (some ("t")) (some ("v")) 3 (by decide) rfl rfl

/-- C3: with Alice's and Bob's Twitter initiations both pending, the
callback carrying BOB's `oauth_token` resolves and consumes ALICE's pending
state — the scan takes the first state whose platform is twitter, the
provider-returned token is never consulted — so the other user's pending
state is invalidated (and the exchange then fails anyway). -/
theorem twitter_callback_consumes_other_users_state :
    (complete_oauth [("sA", aliceState), ("sB", bobState)] [] demoEnv
      none none (some ("tokenB")) (some ("v")) 7).states = [("sB", bobState)] ∧
    exceptOk (complete_oauth [("sA", aliceState), ("sB", bobState)] [] demoEnv
      none none (some ("tokenB")) (some ("v")) 7).result = false := by
  exact ⟨rfl, rfl⟩

/-- A `complete_oauth` call that resolves its state from the `state`
parameter and is past the state check leaves `dictDel states s` behind;
in particular every successful call does. -/
theorem complete_ok_states (states : List (String × StateData))
    (db : List PlatformConnection) (env : Env) (code : Option String)
    (s : String) (n : Nat) (conn : PlatformConnection)
    (h : (complete_oauth states db env code (some s) none none n).result =
      Except.ok conn) :
    (complete_oauth states db env code (some s) none none n).states =
      dictDel states s := by
  unfold complete_oauth at h ⊢
  cases hget : dictGet states s with
  | none => simp [hget] at h
  | some data =>
    simp [hget]

/-- A `complete_oauth` call presenting a state that is not in the store
fails with `invalidOrExpiredState` and changes nothing. -/
theorem complete_unknown_state (states : List (String × StateData))
    (db : List PlatformConnection) (env : Env) (code : Option String)
    (s : String) (n : Nat) (h : dictGet states s = none) :
    complete_oauth states db env code (some s) none none n =
      { result := Except.error SvcError.invalidOrExpiredState,
        states := states, db := db } := by
  unfold complete_oauth
  simp [h]

/-- C4 (amended): once a state `s` has been consumed by a successful
complete, replaying the same callback fails — but with the same
`invalidOrExpiredState` error an unknown state receives, not a distinct
already-consumed error — and it neither creates a connection nor rewrites
tokens: store and table are returned untouched. -/
theorem second_complete_same_state_fails (states : List (String × StateData))
    (db : List PlatformConnection) (env : Env) (code code2 : Option String)
    (s : String) (n1 n2 : Nat) (conn : PlatformConnection)
    (h : (complete_oauth states db env code (some s) none none n1).result =
      Except.ok conn) :
    complete_oauth
      (complete_oauth states db env code (some s) none none n1).states
      (complete_oauth states db env code (some s) none none n1).db env
      code2 (some s) none none n2 =
      { result := Except.error SvcError.invalidOrExpiredState,
        states := (complete_oauth states db env code (some s) none none n1).states,
        db := (complete_oauth states db env code (some s) none none n1).db } := by
  have h1 := complete_ok_states states db env code s n1 conn h
  have h2 : dictGet (complete_oauth states db env code (some s)
      none none n1).states s = none := by
    rw [h1]
    exact dictGet_dictDel states s
  exact complete_unknown_state _ _ env code2 s n2 h2

/-- Witness for C4: the replayed LinkedIn callback evaluated concretely. -/
theorem second_complete_same_state_fails_witness :
    complete_oauth
      (complete_oauth [("s1", linkedinState)] [] demoEnv (some ("c"))
        (some ("s1")) none none 1).states
      (complete_oauth [("s1", linkedinState)] [] demoEnv (some ("c"))
        (some ("s1")) none none 1).db demoEnv
      (some ("c")) (some ("s1")) none none 2 =
      { result := Except.error SvcError.invalidOrExpiredState,
        states := (complete_oauth [("s1", linkedinState)] [] demoEnv
          (some ("c")) (some ("s1")) none none 1).states,
        db := (complete_oauth [("s1", linkedinState)] [] demoEnv (some ("c"))
          (some ("s1")) none none 1).db } :=
  second_complete_same_state_fails [("s1", linkedinState)] [] demoEnv
    (some ("c")) (some ("c")) "s1" 1 2
    (create_new_connection demoEnv [] "carol" "linkedin" demoTokens
      { platform_user_id := "pid", username := "user" } 1).1 (by decide)

/-- C4 counterexample: the second delivery of the consumed state `s1` gets
literally the same `invalidOrExpiredState` error that a never-issued state
`zz` gets — the code has no distinct already-consumed error. -/
theorem second_complete_error_not_distinct :
    exceptOk (complete_oauth [("s1", linkedinState)] [] demoEnv (some ("c"))
      (some ("s1")) none none 1).result = true ∧
    (complete_oauth (complete_oauth [("s1", linkedinState)] [] demoEnv
        (some ("c")) (some ("s1")) none none 1).states
      (complete_oauth [("s1", linkedinState)] [] demoEnv (some ("c"))
        (some ("s1")) none none 1).db demoEnv
      (some ("c")) (some ("s1")) none none 2).result =
      Except.error SvcError.invalidOrExpiredState ∧
    (complete_oauth [] [] demoEnv (some ("c")) (some ("zz")) none none 3).result =
      Except.error SvcError.invalidOrExpiredState := by
  exact ⟨rfl, rfl, rfl⟩

/-- `get_existing_connection` answers `ok none` exactly when no row
matches the triple. -/
theorem get_existing_none (db : List PlatformConnection) (u p pu : String)
    (h : get_existing_connection db u p pu = Except.ok none) :
    db.filter (fun c => c.user_id == u && c.platform == p &&
      c.platform_user_id == pu) = [] := by
  unfold get_existing_connection at h
  cases hf : db.filter (fun c => c.user_id == u && c.platform == p &&
      c.platform_user_id == pu) with
  | nil => rfl
  | cons x t =>
    rw [hf] at h
    cases t <;> simp at h

/-- Inserting a fresh row for a triple with no existing row keeps every
triple count at one or below. -/
theorem create_preserves_unique (env : Env) (db : List PlatformConnection)
    (u p : String) (tokens : OAuthTokens) (profile : UserProfile) (n : Nat)
    (h : DbAtMostOne db)
    (hnone : get_existing_connection db u p profile.platform_user_id =
      Except.ok none) :
    DbAtMostOne (create_new_connection env db u p tokens profile n).2 := by
  intro v q qu
  by_cases h1 : u = v ∧ p = q ∧ profile.platform_user_id = qu
  · obtain ⟨e1, e2, e3⟩ := h1
    subst e1
    subst e2
    subst e3
    have hz : tripleCount db u p profile.platform_user_id = 0 := by
      simp [tripleCount, List.countP_eq_length_filter,
        get_existing_none db u p profile.platform_user_id hnone]
    simp only [tripleCount] at hz
    simp [tripleCount, create_new_connection, List.countP_append,
      List.countP_cons, hz]
  · have hc : ((u == v && (p == q)) && (profile.platform_user_id == qu))
        = false := by
      by_contra hcc
      rw [Bool.not_eq_false] at hcc
      simp only [Bool.and_eq_true, beq_iff_eq] at hcc
      exact h1 ⟨hcc.1.1, hcc.1.2, hcc.2⟩
    have := h v q qu
    simp only [tripleCount, create_new_connection, List.countP_append,
      List.countP_cons, List.countP_nil] at this ⊢
    simp [hc]
    exact this

/-- Rewriting token fields of existing rows changes no triple, so every
triple count is preserved. -/
theorem update_preserves_unique (env : Env) (db : List PlatformConnection)
    (conn : PlatformConnection) (tokens : OAuthTokens) (h : DbAtMostOne db) :
    DbAtMostOne (update_connection_tokens env db conn tokens).2 := by
  intro v q qu
  simp only [update_connection_tokens, tripleCount]
  rw [List.countP_map]
  have hv := h v q qu
  simp only [tripleCount] at hv
  refine le_trans (le_of_eq (List.countP_congr ?_)) hv
  intro c _
  by_cases hid : (c.id == conn.id) = true <;>
    simp [Function.comp, hid]

/-- The upsert tail of complete preserves the uniqueness invariant. -/
theorem apply_exchange_preserves_unique (env : Env)
    (db : List PlatformConnection) (u p : String) (n : Nat)
    (ex : Except SvcError (OAuthTokens × UserProfile)) (h : DbAtMostOne db) :
    DbAtMostOne (apply_exchange_result env db u p n ex).2 := by
  unfold apply_exchange_result
  split
  · exact h
  · split
    · exact h
    · rename_i heq
      exact create_preserves_unique env db u p _ _ n h heq
    · exact update_preserves_unique env db _ _ h

/-- One `complete_oauth` call preserves the uniqueness invariant. -/
theorem complete_preserves_unique (states : List (String × StateData))
    (db : List PlatformConnection) (env : Env)
    (code st ot ov : Option String) (n : Nat) (h : DbAtMostOne db) :
    DbAtMostOne (complete_oauth states db env code st ot ov n).db := by
  simp only [complete_oauth]
  split
  · exact h
  · exact h
  · split
    · exact h
    · exact apply_exchange_preserves_unique env db _ _ n _ h

/-- C7: rows are upserted by the `(user_id, platform, platform_user_id)`
triple — completing OAuth again for the same triple updates the existing
row instead of inserting — so from any table satisfying the uniqueness
invariant, after ANY sequence of complete operations no triple ever has
more than one row. -/
theorem connection_triple_at_most_one (env : Env) (cbs : List OAuthCallback) :
    ∀ sd : List (String × StateData) × List PlatformConnection,
      DbAtMostOne sd.2 → DbAtMostOne (run_completes env cbs sd).2 := by
  induction cbs with
  | nil =>
    intro sd h
    exact h
  | cons cb rest ih =>
    intro sd h
    cases sd with
    | mk states db =>
      exact ih _ (complete_preserves_unique states db env cb.code cb.state
        cb.oauth_token cb.oauth_verifier cb.newId h)

/-- Witness for C7: the same LinkedIn identity completed twice from an
empty table — the table keeps at most one row per triple. -/
theorem connection_triple_at_most_one_witness :
    DbAtMostOne (run_completes demoEnv
      [{ code := some "c", state := some "s1", oauth_token := none,
         oauth_verifier := none, newId := 1 },
       { code := some "c", state := some "s2", oauth_token := none,
         oauth_verifier := none, newId := 2 }]
      ([("s1", linkedinState), ("s2", linkedinState)], [])).2 :=
  connection_triple_at_most_one demoEnv
    [{ code := some "c", state := some "s1", oauth_token := none,
       oauth_verifier := none, newId := 1 },
     { code := some "c", state := some "s2", oauth_token := none,
       oauth_verifier := none, newId := 2 }]
    ([("s1", linkedinState), ("s2", linkedinState)], [])
    (fun u p pu => by simp [tripleCount])

/-- C8 counterexample: `initiate_oauth` for the unsupported platform
`tiktok` does fail with UnsupportedPlatform, but it does NOT leave the
StateStore unchanged — the state record was created before the platform was
validated, so the store has gained a record. -/
theorem initiate_unsupported_still_stores_state :
    (initiate_oauth [] demoEnv "tiktok" "u1" "cb" "s1" 0).1 =
      Except.error SvcError.unsupportedPlatform ∧
    (initiate_oauth [] demoEnv "tiktok" "u1" "cb" "s1" 0).2 ≠ [] := by
  exact ⟨rfl, by decide⟩

/-- C8 (amended): `initiate_oauth` with a platform outside
{twitter, linkedin, facebook, instagram} fails with UnsupportedPlatform,
but only after inserting the state record: the store is the old store plus
the new record, not the old store unchanged. -/
theorem initiate_unsupported_platform (states : List (String × StateData))
    (env : Env) (platform user_id redirect_uri st : String) (now : Nat)
    (h : supportedPlatforms.contains platform = false) :
    initiate_oauth states env platform user_id redirect_uri st now =
      (Except.error SvcError.unsupportedPlatform,
       dictPut states st
         { user_id := user_id, platform := platform,
           redirect_uri := redirect_uri, created_at := now }) := by
  have h2 : platform ∉ supportedPlatforms := by simpa using h
  unfold initiate_oauth
  simp [h2]

/-- Witness for C8 at the unsupported platform `tiktok`. -/
theorem initiate_unsupported_platform_witness :
    initiate_oauth [] demoEnv "tiktok" "u2" "cb2" "s9" 4 =
      (Except.error SvcError.unsupportedPlatform,
       dictPut [] "s9"
         { user_id := "u2", platform := "tiktok",
           redirect_uri := "cb2", created_at := 4 }) :=
  initiate_unsupported_platform [] demoEnv "tiktok" "u2" "cb2" "s9" 4 (by decide)

/-- C9: OAuth1/Twitter has no refresh capability. A successful Twitter
token exchange never carries a refresh token, and refreshing any stored
connection whose `refresh_token` field is NULL — as every Twitter
connection's is — fails with the distinct no-refresh-token error and
returns the connection table byte-identical. -/
theorem twitter_refresh_fails_tokens_unchanged :
    (∀ (reqTokens : TwitterHandlerState) (env : Env)
       (ot ov st : Option String) (tokens : OAuthTokens)
       (rest : TwitterHandlerState),
       twitter_exchange_code_for_tokens reqTokens env ot ov st =
         Except.ok (tokens, rest) → tokens.refresh_token = none) ∧
    (∀ (db : List PlatformConnection) (env : Env) (cid : Nat)
       (conn : PlatformConnection),
       db.filter (fun c => c.id == cid) = [conn] →
       conn.platform = "twitter" → conn.refresh_token = none →
       refresh_connection_token db env cid =
         (Except.error SvcError.noRefreshToken, db)) := by
  constructor
  · intro reqTokens env ot ov st tokens rest h
    unfold twitter_exchange_code_for_tokens at h
    split at h
    · cases h
    · split at h
      · cases h
      · split at h
        · split at h
          · cases h
          · injection h with h1
            injection h1 with h2 h3
            rw [← h2]
        · cases h
  · intro db env cid conn hf hplat hrt
    unfold refresh_connection_token
    simp [hf, hrt]

/-- Witness for C9: refreshing a stored Twitter connection concretely. -/
theorem twitter_refresh_fails_witness :
    refresh_connection_token [twitterConn] demoEnv 5 =
      (Except.error SvcError.noRefreshToken, [twitterConn]) :=
  twitter_refresh_fails_tokens_unchanged.2 [twitterConn] demoEnv 5 twitterConn
    (by decide) rfl rfl

/-- C10: the code never expires states. For EVERY creation time, TTL and
current time — even when the state's age exceeds the TTL — a complete
presenting the state still succeeds: `created_at` is stored but no code
path ever reads it, so expired states are consumable. -/
theorem expired_state_still_completes (created_at ttl now : Nat)
    (hexpired : created_at + ttl < now) :
    exceptOk (complete_oauth
      [("s1", { user_id := "u1", platform := "linkedin",
                redirect_uri := "cb", created_at := created_at })]
      [] demoEnv (some ("c")) (some ("s1")) none none 1).result = true := by
  rfl

/-- Witness for C10: a state ten ticks past its TTL still completes. -/
theorem expired_state_still_completes_witness :
    0 + 1 < 11 ∧
    exceptOk (complete_oauth
      [("s1", { user_id := "u1", platform := "linkedin",
                redirect_uri := "cb", created_at := 0 })]
      [] demoEnv (some ("c")) (some ("s1")) none none 1).result = true :=
  ⟨by decide, expired_state_still_completes 0 1 11 (by decide)⟩

end Quflux
